import Mathlib

/-!
Shallow embedding of the CORS decision engine of `oslo_middleware/cors.py`
(class `CORS`), together with the pieces of `oslo_middleware/base.py` it
relies on (`NoContentTypeResponse`).

Requests and responses are modelled by their observable parts: the request
method and a case-insensitive header mapping (webob exposes headers of both
requests and responses as case-insensitive dictionaries).  Header insertion
(`response.headers[name] = value`) replaces any existing entry whose name
matches case-insensitively, as webob's `ResponseHeaders.__setitem__` does.
The automatic entity framing webob adds to a freshly constructed response
(`Content-Length`) lies below this abstraction and is not modelled; only the
headers the CORS engine reads and writes are tracked.
-/

set_option autoImplicit false

/-- ASCII upcasing of one character, as Python's `str.upper` acts on the
ASCII header names and header values this engine compares. -/
def asciiUpperChar (c : Char) : Char :=
  if 'a' ≤ c ∧ c ≤ 'z' then Char.ofNat (c.toNat - 32) else c

/-- ASCII upcasing of a string (Python `str.upper` on ASCII input). -/
def asciiUpper (s : String) : String :=
  ⟨s.data.map asciiUpperChar⟩

/-- Python `str.strip()` with no argument: drop leading and trailing
whitespace characters. -/
def pyStrip (s : String) : String :=
  ⟨((s.data.dropWhile Char.isWhitespace).reverse.dropWhile
      Char.isWhitespace).reverse⟩

/-- Python `value.rsplit(',')` with no maxsplit: split on every comma,
preserving empty pieces (`"" ↦ [""]`). -/
def splitCommaAux : List Char → List Char → List String
  | [], acc => [⟨acc.reverse⟩]
  | c :: rest, acc =>
    if c = ',' then ⟨acc.reverse⟩ :: splitCommaAux rest []
    else splitCommaAux rest (c :: acc)

/-- Split a string on commas (Python `str.rsplit(',')`). -/
def splitComma (s : String) : List String :=
  splitCommaAux s.data []

/-- A case-insensitive header multimap, as exposed by webob request and
response objects.  Lookup compares names after ASCII upcasing. -/
structure Headers where
  entries : List (String × String)
deriving DecidableEq, Repr

/-- Case-insensitive header lookup (`request.headers[name]` / membership). -/
def Headers.get? (h : Headers) (name : String) : Option String :=
  (h.entries.find? (fun p => asciiUpper p.1 == asciiUpper name)).map Prod.snd

/-- `name in headers` (webob membership test, case-insensitive). -/
def Headers.hasKey (h : Headers) (name : String) : Bool :=
  (h.get? name).isSome

/-- `headers[name] = value`: replace any case-insensitive match, then add. -/
def Headers.set (h : Headers) (name value : String) : Headers :=
  ⟨(h.entries.filter (fun p => asciiUpper p.1 != asciiUpper name)) ++ [(name, value)]⟩

/-- The observable part of a `webob.request.Request`. -/
structure Request where
  method : String
  headers : Headers
deriving DecidableEq, Repr

/-- The observable part of a `webob.response.Response`. -/
structure Response where
  status_code : Nat
  body : String
  headers : Headers
deriving DecidableEq, Repr

/-- `response.headers[name] = value` on a response. -/
def Response.setHeader (r : Response) (name value : String) : Response :=
  { r with headers := r.headers.set name value }

/-- Per-origin policy: the `AllowedOrigin` TypedDict of `cors.py`.
`max_age` is `int | None` in the source (`cfg.IntOpt`), hence `Option Int`. -/
structure AllowedOrigin where
  allow_credentials : Bool
  expose_headers : List String
  max_age : Option Int
  allow_methods : List String
  allow_headers : List String
deriving DecidableEq, Repr

/-- The state of a `CORS` middleware instance: its origin registry
`self.allowed_origins : dict[str, AllowedOrigin]`, modelled as an
association list with exact (case-sensitive) string keys. -/
structure CORS where
  allowed_origins : List (String × AllowedOrigin)
deriving DecidableEq, Repr

/-- Exact case-sensitive dictionary lookup, `self.allowed_origins[origin]`. -/
def lookupOrigin (reg : List (String × AllowedOrigin)) (origin : String) :
    Option AllowedOrigin :=
  (reg.find? (fun p => p.1 == origin)).map Prod.snd

/-- `CORS.simple_headers` (cors.py lines 145-154). -/
def CORS.simple_headers : List String :=
  ["Accept", "Accept-Language", "Content-Type", "Cache-Control",
   "Content-Language", "Expires", "Last-Modified", "Pragma"]

/-- `CORS.add_origin` (cors.py lines 243-288), for the list form of
`allowed_origin` (the string form is wrapped into a one-element list by the
legacy shim at lines 263-271).  An origin already present in the registry is
skipped (lines 275-280); otherwise a policy entry is stored (lines 282-288),
with `x or []` defaulting for the optional list arguments. -/
def CORS.add_origin (c : CORS) (allowed_origin : List String)
    (allow_credentials : Bool) (expose_headers : Option (List String))
    (max_age : Option Int) (allow_methods : Option (List String))
    (allow_headers : Option (List String)) : CORS :=
  allowed_origin.foldl
    (fun acc origin =>
      if (lookupOrigin acc.allowed_origins origin).isSome then acc
      else
        { acc with
          allowed_origins := acc.allowed_origins ++
            [(origin,
              { allow_credentials := allow_credentials
                expose_headers := expose_headers.getD []
                max_age := max_age
                allow_methods := allow_methods.getD []
                allow_headers := allow_headers.getD [] })] })
    c

/-- `CORS._get_cors_config_by_origin` (cors.py lines 443-455).  Raising
`InvalidOriginError` is modelled as `none`; both call sites catch the
exception and abstain. -/
def CORS.getCorsConfigByOrigin (c : CORS) (origin : String) :
    Option (String × AllowedOrigin) :=
  match lookupOrigin c.allowed_origins origin with
  | some cfg => some (origin, cfg)
  | none =>
    match lookupOrigin c.allowed_origins "*" with
    | some cfg => some ("*", cfg)
    | none => none

/-- `CORS._split_header_values` (cors.py lines 329-341): split the named
request header on commas, strip each piece, drop empty pieces.  An absent
header yields the empty list. -/
def CORS.splitHeaderValues (request : Request) (header_name : String) :
    List String :=
  match request.headers.get? header_name with
  | none => []
  | some v => ((splitComma v).map pyStrip).filter (fun s => s != "")

/-- The fresh response built at cors.py lines 358-360:
`base.NoContentTypeResponse(status=str(webob.exc.HTTPOk.code))` — an empty
`200 OK` response carrying none of the inner handler's headers. -/
def emptyOkResponse : Response :=
  { status_code := 200, body := "", headers := ⟨[]⟩ }

/-- Step 1 of the preflight algorithm (cors.py lines 354-360): a response
whose status code is outside the 2xx range is replaced by a fresh empty
`200 OK` response. -/
def reshapeResponse (response : Response) : Response :=
  if 200 > response.status_code ∨ response.status_code ≥ 300 then
    emptyOkResponse
  else
    response

/-- The header-emission tail of `CORS._apply_cors_preflight_headers`
(cors.py lines 418-441), reached once every preflight check has passed.
`if cors_config['max_age']` at line 427 is a Python truthiness test: both
`None` and `0` skip the `Access-Control-Max-Age` header. -/
def applyPreflightSuccessHeaders (response : Response) (origin : String)
    (cors_config : AllowedOrigin) (request_method : String)
    (request_headers : List String) : Response :=
  let r1 := response.setHeader "Vary" "Origin"
  let r2 := r1.setHeader "Access-Control-Allow-Origin" origin
  let r3 :=
    if cors_config.allow_credentials then
      r2.setHeader "Access-Control-Allow-Credentials" "true"
    else r2
  let r4 :=
    match cors_config.max_age with
    | none => r3
    | some v =>
      if v = 0 then r3
      else r3.setHeader "Access-Control-Max-Age" (toString v)
  let r5 := r4.setHeader "Access-Control-Allow-Methods" request_method
  if request_headers.isEmpty then r5
  else
    r5.setHeader "Access-Control-Allow-Headers"
      (String.intercalate "," request_headers)

/-- `CORS._apply_cors_preflight_headers` (cors.py lines 343-441): reshape a
non-2xx response, then run the early-exit checks of W3C CORS sections
6.2.1-6.2.6, and on success emit the preflight headers.  In the source,
parsing `Access-Control-Request-Headers` (line 384) cannot raise for the
string values modelled here, so the `except` branch at line 388 is dead. -/
def CORS.applyCorsPreflightHeaders (c : CORS) (request : Request)
    (response0 : Response) : Response :=
  let response := reshapeResponse response0
  match request.headers.get? "Origin" with
  | none => response
  | some requestOrigin =>
    match c.getCorsConfigByOrigin requestOrigin with
    | none => response
    | some (origin, cors_config) =>
      match request.headers.get? "Access-Control-Request-Method" with
      | none => response
      | some request_method =>
        let request_headers :=
          CORS.splitHeaderValues request "Access-Control-Request-Headers"
        if cors_config.allow_methods.contains request_method then
          let permitted_headers :=
            (cors_config.allow_headers ++ CORS.simple_headers).map asciiUpper
          if request_headers.any
              (fun rh => !(permitted_headers.contains (asciiUpper rh))) then
            response
          else
            applyPreflightSuccessHeaders response origin cors_config
              request_method request_headers
        else
          response

/-- `CORS._apply_cors_request_headers` (cors.py lines 457-495): the
regular-request (W3C section 6.1) path. -/
def CORS.applyCorsRequestHeaders (c : CORS) (request : Request)
    (response : Response) : Response :=
  match request.headers.get? "Origin" with
  | none => response
  | some requestOrigin =>
    match c.getCorsConfigByOrigin requestOrigin with
    | none => response
    | some (origin, cors_config) =>
      let r1 :=
        match response.headers.get? "Vary" with
        | some v => response.setHeader "Vary" (v ++ ",Origin")
        | none => response.setHeader "Vary" "Origin"
      let r2 := r1.setHeader "Access-Control-Allow-Origin" origin
      let r3 :=
        if cors_config.allow_credentials then
          r2.setHeader "Access-Control-Allow-Credentials" "true"
        else r2
      if cors_config.expose_headers.isEmpty then r3
      else
        r3.setHeader "Access-Control-Expose-Headers"
          (String.intercalate "," cors_config.expose_headers)

/-- `CORS.process_response` (cors.py lines 290-327): yield to an inner
handler that already set `Access-Control-Allow-Origin`, require a request
object, then dispatch on the request method. -/
def CORS.process_response (c : CORS) (response : Response)
    (request : Option Request) : Response :=
  if response.headers.hasKey "Access-Control-Allow-Origin" then response
  else
    match request with
    | none => response
    | some req =>
      if req.method = "OPTIONS" then
        c.applyCorsPreflightHeaders req response
      else
        c.applyCorsRequestHeaders req response

/-! ### Header-map lemmas -/

theorem find?_filter_of_excl {α : Type} (l : List α) (p q : α → Bool)
    (h : ∀ x, q x = true → p x = false) : (l.filter q).find? p = none := by
  induction l with
  | nil => rfl
  | cons a t ih =>
    cases hq : q a with
    | false => simp [List.filter_cons, hq, ih]
    | true => simp [List.filter_cons, hq, List.find?_cons, h a hq, ih]

theorem find?_filter_of_keep {α : Type} (l : List α) (p q : α → Bool)
    (h : ∀ x, p x = true → q x = true) : (l.filter q).find? p = l.find? p := by
  induction l with
  | nil => rfl
  | cons a t ih =>
    cases hp : p a with
    | true =>
      have hq := h a hp
      simp [List.filter_cons, hq, List.find?_cons, hp]
    | false =>
      cases hq : q a with
      | true => simp [List.filter_cons, hq, List.find?_cons, hp, ih]
      | false => simp [List.filter_cons, hq, List.find?_cons, hp, ih]

theorem headers_get_set_self (h : Headers) (n v m : String)
    (hnm : asciiUpper m = asciiUpper n) :
    (h.set n v).get? m = some v := by
  unfold Headers.set Headers.get?
  rw [List.find?_append]
  rw [find?_filter_of_excl _ _ _
    (fun x hq => by
      rw [beq_eq_false_iff_ne]
      intro hx
      rw [hx, hnm] at hq
      simp at hq)]
  rw [Option.none_or, List.find?_cons]
  have : (asciiUpper (n, v).1 == asciiUpper m) = true := by
    rw [beq_iff_eq]
    exact hnm.symm
  rw [this]
  rfl

theorem headers_get_set_other (h : Headers) (n v m : String)
    (hnm : asciiUpper m ≠ asciiUpper n) :
    (h.set n v).get? m = h.get? m := by
  unfold Headers.set Headers.get?
  rw [List.find?_append]
  have hlast : List.find? (fun p => asciiUpper p.1 == asciiUpper m)
      [(n, v)] = none := by
    rw [List.find?_cons]
    have : (asciiUpper (n, v).1 == asciiUpper m) = false := by
      rw [beq_eq_false_iff_ne]
      exact fun hx => hnm hx.symm
    rw [this, List.find?_nil]
  rw [hlast, Option.or_none]
  rw [find?_filter_of_keep _ _ _
    (fun x hp => by
      rw [bne_iff_ne]
      rw [beq_iff_eq] at hp
      rw [hp]
      exact hnm)]

/-- One-shot description of reading a header after a write. -/
theorem headers_get_set (h : Headers) (n v m : String) :
    (h.set n v).get? m =
      if asciiUpper m = asciiUpper n then some v else h.get? m := by
  by_cases hc : asciiUpper m = asciiUpper n
  · rw [if_pos hc, headers_get_set_self h n v m hc]
  · rw [if_neg hc, headers_get_set_other h n v m hc]

theorem response_get_setHeader (r : Response) (n v m : String) :
    (r.setHeader n v).headers.get? m =
      if asciiUpper m = asciiUpper n then some v else r.headers.get? m := by
  unfold Response.setHeader
  exact headers_get_set r.headers n v m

theorem setHeader_status (r : Response) (n v : String) :
    (r.setHeader n v).status_code = r.status_code := rfl

theorem empty_headers_get (m : String) : (⟨[]⟩ : Headers).get? m = none := rfl

/-! ### Reshaping lemmas -/

theorem reshape_eq_self (resp : Response)
    (h : ¬(200 > resp.status_code ∨ resp.status_code ≥ 300)) :
    reshapeResponse resp = resp := if_neg h

theorem reshape_eq_empty (resp : Response)
    (h : 200 > resp.status_code ∨ resp.status_code ≥ 300) :
    reshapeResponse resp = emptyOkResponse := if_pos h

theorem reshape_get_none (resp : Response) (n : String)
    (h : resp.headers.get? n = none) :
    (reshapeResponse resp).headers.get? n = none := by
  unfold reshapeResponse
  split
  · exact empty_headers_get n
  · exact h

/-! ### Headers emitted on the preflight success path -/

theorem success_get_acao (r : Response) (origin : String)
    (cfg : AllowedOrigin) (rm : String) (hs : List String) :
    (applyPreflightSuccessHeaders r origin cfg rm hs).headers.get?
      "Access-Control-Allow-Origin" = some origin := by
  unfold applyPreflightSuccessHeaders
  cases hma : cfg.max_age with
  | none =>
    cases hcred : cfg.allow_credentials <;> cases hemp : hs.isEmpty <;>
      simp +decide [hemp, response_get_setHeader]
  | some v =>
    by_cases hv : v = 0 <;>
      cases hcred : cfg.allow_credentials <;> cases hemp : hs.isEmpty <;>
        simp +decide [hemp, hv, response_get_setHeader]

theorem success_get_max_age (r : Response) (origin : String)
    (cfg : AllowedOrigin) (rm : String) (hs : List String)
    (h : r.headers.get? "Access-Control-Max-Age" = none) :
    (applyPreflightSuccessHeaders r origin cfg rm hs).headers.get?
      "Access-Control-Max-Age" =
      (match cfg.max_age with
       | none => none
       | some v => if v = 0 then none else some (toString v)) := by
  unfold applyPreflightSuccessHeaders
  cases hma : cfg.max_age with
  | none =>
    cases hcred : cfg.allow_credentials <;> cases hemp : hs.isEmpty <;>
      simp +decide [hemp, response_get_setHeader, h]
  | some v =>
    by_cases hv : v = 0 <;>
      cases hcred : cfg.allow_credentials <;> cases hemp : hs.isEmpty <;>
        simp +decide [hemp, hv, response_get_setHeader, h]

theorem success_get_allow_headers (r : Response) (origin : String)
    (cfg : AllowedOrigin) (rm : String) (hs : List String)
    (h : r.headers.get? "Access-Control-Allow-Headers" = none) :
    (applyPreflightSuccessHeaders r origin cfg rm hs).headers.get?
      "Access-Control-Allow-Headers" =
      (if hs.isEmpty then none else some (String.intercalate "," hs)) := by
  unfold applyPreflightSuccessHeaders
  cases hma : cfg.max_age with
  | none =>
    cases hcred : cfg.allow_credentials <;> cases hemp : hs.isEmpty <;>
      simp +decide [hemp, response_get_setHeader, h]
  | some v =>
    by_cases hv : v = 0 <;>
      cases hcred : cfg.allow_credentials <;> cases hemp : hs.isEmpty <;>
        simp +decide [hemp, hv, response_get_setHeader, h]

/-! ### Reductions of the preflight and regular-request algorithms -/

theorem getCorsConfig_wildcard (c : CORS) (o : String) (cfg : AllowedOrigin)
    (hno : lookupOrigin c.allowed_origins o = none)
    (hwild : lookupOrigin c.allowed_origins "*" = some cfg) :
    c.getCorsConfigByOrigin o = some ("*", cfg) := by
  unfold CORS.getCorsConfigByOrigin
  rw [hno, hwild]

theorem preflight_success_reduction (c : CORS) (req : Request)
    (resp : Response) (o origin m : String) (cfg : AllowedOrigin)
    (horig : req.headers.get? "Origin" = some o)
    (hcfg : c.getCorsConfigByOrigin o = some (origin, cfg))
    (hm : req.headers.get? "Access-Control-Request-Method" = some m)
    (hmeth : cfg.allow_methods.contains m = true)
    (hok : (CORS.splitHeaderValues req "Access-Control-Request-Headers").any
      (fun rh =>
        !(((cfg.allow_headers ++ CORS.simple_headers).map
            asciiUpper).contains (asciiUpper rh))) = false) :
    c.applyCorsPreflightHeaders req resp =
      applyPreflightSuccessHeaders (reshapeResponse resp) origin cfg m
        (CORS.splitHeaderValues req "Access-Control-Request-Headers") := by
  unfold CORS.applyCorsPreflightHeaders
  simp only [horig, hcfg, hm, hmeth, hok, if_true, Bool.false_eq_true,
    if_false]

theorem preflight_bad_header_reduction (c : CORS) (req : Request)
    (resp : Response) (o origin : String) (cfg : AllowedOrigin)
    (horig : req.headers.get? "Origin" = some o)
    (hcfg : c.getCorsConfigByOrigin o = some (origin, cfg))
    (hbad : (CORS.splitHeaderValues req "Access-Control-Request-Headers").any
      (fun rh =>
        !(((cfg.allow_headers ++ CORS.simple_headers).map
            asciiUpper).contains (asciiUpper rh))) = true) :
    c.applyCorsPreflightHeaders req resp = reshapeResponse resp := by
  unfold CORS.applyCorsPreflightHeaders
  simp only [horig, hcfg]
  cases hm : req.headers.get? "Access-Control-Request-Method" with
  | none => rfl
  | some m =>
    cases hc : cfg.allow_methods.contains m <;>
      simp only [hbad, hc, Bool.false_eq_true, if_false, if_true]

theorem preflight_bad_method_reduction (c : CORS) (req : Request)
    (resp : Response) (o origin m : String) (cfg : AllowedOrigin)
    (horig : req.headers.get? "Origin" = some o)
    (hcfg : c.getCorsConfigByOrigin o = some (origin, cfg))
    (hm : req.headers.get? "Access-Control-Request-Method" = some m)
    (hnot : cfg.allow_methods.contains m = false) :
    c.applyCorsPreflightHeaders req resp = reshapeResponse resp := by
  unfold CORS.applyCorsPreflightHeaders
  simp only [horig, hcfg, hm, hnot, Bool.false_eq_true, if_false]

theorem regular_get_acao (c : CORS) (req : Request) (resp : Response)
    (o origin : String) (cfg : AllowedOrigin)
    (horig : req.headers.get? "Origin" = some o)
    (hcfg : c.getCorsConfigByOrigin o = some (origin, cfg)) :
    (c.applyCorsRequestHeaders req resp).headers.get?
      "Access-Control-Allow-Origin" = some origin := by
  unfold CORS.applyCorsRequestHeaders
  simp only [horig, hcfg]
  cases hvary : resp.headers.get? "Vary" <;>
    cases hcred : cfg.allow_credentials <;>
      cases hexp : cfg.expose_headers.isEmpty <;>
        simp +decide [hexp, response_get_setHeader]

/-! ### Further lemmas on `process_response` and the two branch algorithms -/

theorem preflight_no_origin (c : CORS) (req : Request) (resp : Response)
    (horig : req.headers.get? "Origin" = none) :
    c.applyCorsPreflightHeaders req resp = reshapeResponse resp := by
  unfold CORS.applyCorsPreflightHeaders
  simp only [horig]

theorem regular_no_origin (c : CORS) (req : Request) (resp : Response)
    (horig : req.headers.get? "Origin" = none) :
    c.applyCorsRequestHeaders req resp = resp := by
  unfold CORS.applyCorsRequestHeaders
  simp only [horig]

theorem process_response_decorated (c : CORS) (resp : Response)
    (request : Option Request)
    (h : resp.headers.hasKey "Access-Control-Allow-Origin" = true) :
    c.process_response resp request = resp := by
  unfold CORS.process_response
  rw [if_pos h]

theorem process_response_some (c : CORS) (resp : Response) (req : Request)
    (h : resp.headers.hasKey "Access-Control-Allow-Origin" = false) :
    c.process_response resp (some req) =
      (if req.method = "OPTIONS" then c.applyCorsPreflightHeaders req resp
       else c.applyCorsRequestHeaders req resp) := by
  unfold CORS.process_response
  simp only [h, Bool.false_eq_true, if_false]

/-! ### Concrete fixtures used by counterexamples and witnesses -/

/-- A policy permitting `GET` with no extra allowed headers. -/
def polRestrict : AllowedOrigin :=
  { allow_credentials := false, expose_headers := [], max_age := none,
    allow_methods := ["GET"], allow_headers := [] }

/-- A policy with a registered `max_age` of `0`. -/
def polZero : AllowedOrigin :=
  { allow_credentials := false, expose_headers := [], max_age := some 0,
    allow_methods := ["GET"], allow_headers := [] }

/-- A registry holding only the wildcard entry. -/
def corsStar : CORS := ⟨[("*", polRestrict)]⟩

/-- A registry holding only the exact origin `http://a`. -/
def corsA : CORS := ⟨[("http://a", polRestrict)]⟩

/-- A registry in which `http://a` registered `max_age = 0`. -/
def corsZero : CORS := ⟨[("http://a", polZero)]⟩

/-- Preflight request from an unregistered origin. -/
def preflightReqX : Request :=
  { method := "OPTIONS",
    headers := ⟨[("Origin", "http://x.example.com"),
                 ("Access-Control-Request-Method", "GET")]⟩ }

/-- Regular (non-OPTIONS) request from an unregistered origin. -/
def regularReqX : Request :=
  { method := "GET", headers := ⟨[("Origin", "http://x.example.com")]⟩ }

/-- Preflight request from `http://a` asking for `GET`. -/
def reqSimpleGet : Request :=
  { method := "OPTIONS",
    headers := ⟨[("Origin", "http://a"),
                 ("Access-Control-Request-Method", "GET")]⟩ }

/-- Preflight request whose requested header is not permitted. -/
def reqBadHeader : Request :=
  { method := "OPTIONS",
    headers := ⟨[("Origin", "http://a"),
                 ("Access-Control-Request-Method", "GET"),
                 ("Access-Control-Request-Headers", "X-Not-Allowed")]⟩ }

/-- Preflight request asking for an unpermitted method. -/
def reqTeapot : Request :=
  { method := "OPTIONS",
    headers := ⟨[("Origin", "http://a"),
                 ("Access-Control-Request-Method", "TEAPOT")]⟩ }

/-- Preflight request whose requested-headers value carries whitespace and
an empty token. -/
def reqWhitespace : Request :=
  { method := "OPTIONS",
    headers := ⟨[("Origin", "http://a"),
                 ("Access-Control-Request-Method", "GET"),
                 ("Access-Control-Request-Headers", " cache-control , ")]⟩ }

/-- OPTIONS request with no Origin header. -/
def reqOptNoOrigin : Request := { method := "OPTIONS", headers := ⟨[]⟩ }

/-- GET request with no Origin header. -/
def reqGetNoOrigin : Request := { method := "GET", headers := ⟨[]⟩ }

/-- A plain 200 response with no headers. -/
def plainOkResp : Response := { status_code := 200, body := "", headers := ⟨[]⟩ }

/-- A 500 response carrying a custom header. -/
def respBad500 : Response :=
  { status_code := 500, body := "", headers := ⟨[("X-Custom", "1")]⟩ }

/-- A response on which an inner handler already performed CORS handling. -/
def respDecorated : Response :=
  { status_code := 200, body := "",
    headers := ⟨[("Access-Control-Allow-Origin", "http://a")]⟩ }

/-! ### Claim C10 -/

/-- C10: for every response, invoking `process_response` with no request
object returns the response unchanged, regardless of registry contents and
of any pre-existing CORS headers on the response. -/
theorem c10_no_request_returns_unchanged (c : CORS) (resp : Response) :
    c.process_response resp none = resp := by
  unfold CORS.process_response
  split
  · rfl
  · rfl

/-! ### Claim C3 -/

/-- C3: a response that already carries `Access-Control-Allow-Origin` is
returned completely unmodified, for every request (the check runs before
branching on the method); hence applying the engine a second time to any
already-decorated response is a no-op. -/
theorem c3_already_decorated_no_op (c : CORS) (resp : Response)
    (request : Option Request) :
    (resp.headers.hasKey "Access-Control-Allow-Origin" = true →
        c.process_response resp request = resp) ∧
      ∀ request2 : Option Request,
        (c.process_response resp request).headers.hasKey
            "Access-Control-Allow-Origin" = true →
          c.process_response (c.process_response resp request) request2 =
            c.process_response resp request :=
  ⟨process_response_decorated c resp request,
   fun request2 h => process_response_decorated c _ request2 h⟩

/-- Witness for C3 at a concrete decorated response. -/
theorem c3_witness :
    corsStar.process_response respDecorated (some regularReqX) =
        respDecorated ∧
      corsStar.process_response
          (corsStar.process_response respDecorated none)
          (some preflightReqX) =
        corsStar.process_response respDecorated none :=
  ⟨(c3_already_decorated_no_op corsStar respDecorated (some regularReqX)).1
      (by decide),
   (c3_already_decorated_no_op corsStar respDecorated none).2
      (some preflightReqX) (by decide)⟩

/-! ### Claim C9 -/

theorem lookup_append_left (reg ext : List (String × AllowedOrigin))
    (origin : String) (p : AllowedOrigin)
    (h : lookupOrigin reg origin = some p) :
    lookupOrigin (reg ++ ext) origin = some p := by
  unfold lookupOrigin at h ⊢
  cases hf : List.find? (fun q => q.1 == origin) reg with
  | none => rw [hf] at h; simp at h
  | some x =>
    rw [List.find?_append, hf]
    rw [hf] at h
    exact h

/-- C9: registering an origin string that is already a key of the registry
leaves that origin's existing policy unchanged — first registration wins,
for every sequence of origins passed to `add_origin`. -/
theorem c9_add_origin_first_wins (c : CORS) (os : List String) (cred : Bool)
    (eh : Option (List String)) (ma : Option Int)
    (am ah : Option (List String)) (origin : String) (p : AllowedOrigin)
    (h : lookupOrigin c.allowed_origins origin = some p) :
    lookupOrigin (c.add_origin os cred eh ma am ah).allowed_origins origin =
      some p := by
  induction os generalizing c with
  | nil => exact h
  | cons o' rest ih =>
    have hstep :
        c.add_origin (o' :: rest) cred eh ma am ah =
          (if (lookupOrigin c.allowed_origins o').isSome then c
           else
             { c with
               allowed_origins := c.allowed_origins ++
                 [(o',
                   { allow_credentials := cred
                     expose_headers := eh.getD []
                     max_age := ma
                     allow_methods := am.getD []
                     allow_headers := ah.getD [] })] }).add_origin
            rest cred eh ma am ah := by
      unfold CORS.add_origin
      rw [List.foldl_cons]
    rw [hstep]
    by_cases hc : (lookupOrigin c.allowed_origins o').isSome
    · rw [if_pos hc]
      exact ih c h
    · rw [if_neg hc]
      exact ih _ (lookup_append_left _ _ _ _ h)

/-- Witness for C9: re-registering `http://a` with a different policy does
not overwrite the existing one. -/
theorem c9_witness :
    lookupOrigin
        ((corsA.add_origin ["http://a"] true none (some 99) (some ["DELETE"])
            none).allowed_origins) "http://a" =
      some polRestrict :=
  c9_add_origin_first_wins corsA ["http://a"] true none (some 99)
    (some ["DELETE"]) none "http://a" polRestrict (by decide)

/-! ### Claim C4 -/

/-- C4 counterexample: an OPTIONS request with no `Origin` header and a
non-2xx inner response does NOT leave the response headers unchanged — the
engine substitutes the fresh empty `200 OK` response, dropping the inner
handler's `X-Custom` header. -/
theorem c4_counterexample :
    respBad500.headers.get? "X-Custom" = some "1" ∧
      (corsStar.process_response respBad500 (some reqOptNoOrigin)).headers.get?
          "X-Custom" = none ∧
      reqOptNoOrigin.headers.get? "Origin" = none := by decide

/-- C4 amended: for a request lacking `Origin`, the engine adds no CORS
headers; the response is returned unchanged for non-OPTIONS methods, for
pre-decorated responses, and for OPTIONS with a 2xx status — but an OPTIONS
request whose undecorated inner response has a non-2xx status yields the
fresh empty `200 OK` response (original headers dropped). -/
theorem c4_no_origin_behavior (c : CORS) (req : Request) (resp : Response)
    (horig : req.headers.get? "Origin" = none) :
    (req.method ≠ "OPTIONS" → c.process_response resp (some req) = resp) ∧
      (resp.headers.hasKey "Access-Control-Allow-Origin" = true →
        c.process_response resp (some req) = resp) ∧
      (req.method = "OPTIONS" →
        resp.headers.hasKey "Access-Control-Allow-Origin" = false →
        ¬(200 > resp.status_code ∨ resp.status_code ≥ 300) →
        c.process_response resp (some req) = resp) ∧
      (req.method = "OPTIONS" →
        resp.headers.hasKey "Access-Control-Allow-Origin" = false →
        (200 > resp.status_code ∨ resp.status_code ≥ 300) →
        c.process_response resp (some req) = emptyOkResponse) := by
  refine ⟨?_, ?_, ?_, ?_⟩
  · intro hne
    cases hk : resp.headers.hasKey "Access-Control-Allow-Origin" with
    | true => exact process_response_decorated c resp _ hk
    | false =>
      rw [process_response_some c resp req hk, if_neg hne]
      exact regular_no_origin c req resp horig
  · intro hk
    exact process_response_decorated c resp _ hk
  · intro hopt hk hst
    rw [process_response_some c resp req hk, if_pos hopt,
      preflight_no_origin c req resp horig]
    exact reshape_eq_self resp hst
  · intro hopt hk hst
    rw [process_response_some c resp req hk, if_pos hopt,
      preflight_no_origin c req resp horig]
    exact reshape_eq_empty resp hst

/-- Witness for C4 at concrete inputs: a GET without Origin is untouched
and an OPTIONS without Origin over a 500 response becomes the fresh empty
200 response. -/
theorem c4_witness :
    corsStar.process_response respBad500 (some reqGetNoOrigin) = respBad500 ∧
      corsStar.process_response respBad500 (some reqOptNoOrigin) =
        emptyOkResponse :=
  ⟨(c4_no_origin_behavior corsStar reqGetNoOrigin respBad500 (by decide)).1
      (by decide),
   (c4_no_origin_behavior corsStar reqOptNoOrigin respBad500
      (by decide)).2.2.2 rfl (by decide) (by decide)⟩

/-! ### Claim C5 -/

/-- C5: a preflight request with a matched origin whose parsed requested
headers contain a token outside (allow_headers ∪ simple_headers), compared
case-insensitively, makes the engine abstain entirely: the result is the
reshaped input response, and none of the five CORS response headers is
set. -/
theorem c5_forbidden_header_abstains (c : CORS) (req : Request)
    (resp : Response) (o origin : String) (cfg : AllowedOrigin)
    (horig : req.headers.get? "Origin" = some o)
    (hcfg : c.getCorsConfigByOrigin o = some (origin, cfg))
    (hbad : (CORS.splitHeaderValues req "Access-Control-Request-Headers").any
      (fun rh =>
        !(((cfg.allow_headers ++ CORS.simple_headers).map
            asciiUpper).contains (asciiUpper rh))) = true) :
    c.applyCorsPreflightHeaders req resp = reshapeResponse resp ∧
      ∀ name ∈ ["Access-Control-Allow-Origin", "Access-Control-Allow-Methods",
          "Access-Control-Allow-Headers", "Access-Control-Allow-Credentials",
          "Access-Control-Max-Age"],
        resp.headers.get? name = none →
          (c.applyCorsPreflightHeaders req resp).headers.get? name = none := by
  have h1 :=
    preflight_bad_header_reduction c req resp o origin cfg horig hcfg hbad
  refine ⟨h1, ?_⟩
  intro name _ hn
  rw [h1]
  exact reshape_get_none resp name hn

/-- Witness for C5: requesting the unpermitted header `X-Not-Allowed`. -/
theorem c5_witness :
    corsA.applyCorsPreflightHeaders reqBadHeader plainOkResp =
        reshapeResponse plainOkResp ∧
      (corsA.applyCorsPreflightHeaders reqBadHeader plainOkResp).headers.get?
          "Access-Control-Allow-Origin" = none :=
  ⟨(c5_forbidden_header_abstains corsA reqBadHeader plainOkResp "http://a"
      "http://a" polRestrict (by decide) (by decide) (by decide)).1,
   (c5_forbidden_header_abstains corsA reqBadHeader plainOkResp "http://a"
      "http://a" polRestrict (by decide) (by decide) (by decide)).2
      "Access-Control-Allow-Origin" (by decide) (by decide)⟩

/-! ### Claim C6 -/

/-- C6: a preflight request whose requested method is not an exact member
of the matched policy's allow_methods abstains — the engine sets none of
the `Access-Control-Allow-*` headers — and when the inner response status
was outside the 2xx range the returned response is the fresh empty
`200 OK` response. -/
theorem c6_method_not_allowed_abstains (c : CORS) (req : Request)
    (resp : Response) (o origin m : String) (cfg : AllowedOrigin)
    (horig : req.headers.get? "Origin" = some o)
    (hcfg : c.getCorsConfigByOrigin o = some (origin, cfg))
    (hm : req.headers.get? "Access-Control-Request-Method" = some m)
    (hnot : cfg.allow_methods.contains m = false) :
    c.applyCorsPreflightHeaders req resp = reshapeResponse resp ∧
      ((200 > resp.status_code ∨ resp.status_code ≥ 300) →
        c.applyCorsPreflightHeaders req resp = emptyOkResponse) ∧
      ∀ name ∈ ["Access-Control-Allow-Origin", "Access-Control-Allow-Methods",
          "Access-Control-Allow-Headers", "Access-Control-Allow-Credentials"],
        resp.headers.get? name = none →
          (c.applyCorsPreflightHeaders req resp).headers.get? name = none := by
  have h1 :=
    preflight_bad_method_reduction c req resp o origin m cfg horig hcfg hm hnot
  refine ⟨h1, ?_, ?_⟩
  · intro hst
    rw [h1]
    exact reshape_eq_empty resp hst
  · intro name _ hn
    rw [h1]
    exact reshape_get_none resp name hn

/-- Witness for C6: preflighting method `TEAPOT` against a policy allowing
only `GET`, over a 500 inner response, yields the bare empty 200 response
with no CORS headers. -/
theorem c6_witness :
    corsA.applyCorsPreflightHeaders reqTeapot respBad500 = emptyOkResponse ∧
      (corsA.applyCorsPreflightHeaders reqTeapot respBad500).headers.get?
          "Access-Control-Allow-Methods" = none :=
  ⟨(c6_method_not_allowed_abstains corsA reqTeapot respBad500 "http://a"
      "http://a" "TEAPOT" polRestrict (by decide) (by decide) (by decide)
      (by decide)).2.1 (by decide),
   (c6_method_not_allowed_abstains corsA reqTeapot respBad500 "http://a"
      "http://a" "TEAPOT" polRestrict (by decide) (by decide) (by decide)
      (by decide)).2.2 "Access-Control-Allow-Methods" (by decide)
      (by decide)⟩

/-! ### Claim C1 -/

/-- C1 counterexample: a passing preflight from the unregistered origin
`http://x.example.com` against a registry holding the wildcard entry emits
`Access-Control-Allow-Origin: *` — the literal wildcard key, not the echoed
request origin. -/
theorem c1_counterexample :
    preflightReqX.headers.get? "Origin" = some "http://x.example.com" ∧
      (corsStar.process_response plainOkResp
          (some preflightReqX)).headers.get? "Access-Control-Allow-Origin" =
        some "*" ∧
      ("*" : String) ≠ "http://x.example.com" := by decide

/-- C1 amended: when a preflight request's origin has no exact registry
match but `*` is registered and all remaining preflight conditions pass,
the emitted `Access-Control-Allow-Origin` value is the literal wildcard
key `*` (never the echoed request origin, unless that origin is itself
`*`). -/
theorem c1_wildcard_preflight_emits_star (c : CORS) (req : Request)
    (resp : Response) (o m : String) (cfg : AllowedOrigin)
    (horig : req.headers.get? "Origin" = some o)
    (hno : lookupOrigin c.allowed_origins o = none)
    (hwild : lookupOrigin c.allowed_origins "*" = some cfg)
    (hm : req.headers.get? "Access-Control-Request-Method" = some m)
    (hmeth : cfg.allow_methods.contains m = true)
    (hok : (CORS.splitHeaderValues req "Access-Control-Request-Headers").any
      (fun rh =>
        !(((cfg.allow_headers ++ CORS.simple_headers).map
            asciiUpper).contains (asciiUpper rh))) = false) :
    (c.applyCorsPreflightHeaders req resp).headers.get?
      "Access-Control-Allow-Origin" = some "*" := by
  rw [preflight_success_reduction c req resp o "*" m cfg horig
    (getCorsConfig_wildcard c o cfg hno hwild) hm hmeth hok]
  exact success_get_acao _ _ _ _ _

/-- Witness for C1 at the concrete wildcard registry. -/
theorem c1_witness :
    (corsStar.applyCorsPreflightHeaders preflightReqX plainOkResp).headers.get?
      "Access-Control-Allow-Origin" = some "*" :=
  c1_wildcard_preflight_emits_star corsStar preflightReqX plainOkResp
    "http://x.example.com" "GET" polRestrict (by decide) (by decide)
    (by decide) (by decide) (by decide) (by decide)

/-! ### Claim C2 -/

/-- C2 counterexample: a regular GET request from the unregistered origin
`http://x.example.com` against a wildcard-holding registry does NOT leave
the response untouched — the regular-request path falls back to the
wildcard entry and sets `Access-Control-Allow-Origin: *`. -/
theorem c2_counterexample :
    plainOkResp.headers.get? "Access-Control-Allow-Origin" = none ∧
      (corsStar.process_response plainOkResp
          (some regularReqX)).headers.get? "Access-Control-Allow-Origin" =
        some "*" := by decide

/-- C2 amended: the regular-request path performs the same wildcard
fallback as the preflight path: when the request origin has no exact
case-sensitive match but `*` is registered, it sets
`Access-Control-Allow-Origin` to the literal `*` rather than abstaining. -/
theorem c2_regular_wildcard_fallback (c : CORS) (req : Request)
    (resp : Response) (o : String) (cfg : AllowedOrigin)
    (horig : req.headers.get? "Origin" = some o)
    (hno : lookupOrigin c.allowed_origins o = none)
    (hwild : lookupOrigin c.allowed_origins "*" = some cfg) :
    (c.applyCorsRequestHeaders req resp).headers.get?
      "Access-Control-Allow-Origin" = some "*" :=
  regular_get_acao c req resp o "*" cfg horig
    (getCorsConfig_wildcard c o cfg hno hwild)

/-- Witness for C2 at the concrete wildcard registry. -/
theorem c2_witness :
    (corsStar.applyCorsRequestHeaders regularReqX plainOkResp).headers.get?
      "Access-Control-Allow-Origin" = some "*" :=
  c2_regular_wildcard_fallback corsStar regularReqX plainOkResp
    "http://x.example.com" polRestrict (by decide) (by decide) (by decide)

/-! ### Claim C7 -/

/-- C7 counterexample: a fully passing preflight against a policy whose
registered `max_age` is `0` does not emit `Access-Control-Max-Age` at all
(`if cors_config['max_age']` is a Python truthiness test), although the
decision succeeded — `Access-Control-Allow-Origin` is set. -/
theorem c7_counterexample :
    polZero.max_age = some 0 ∧
      (corsZero.process_response plainOkResp
          (some reqSimpleGet)).headers.get? "Access-Control-Allow-Origin" =
        some "http://a" ∧
      (corsZero.process_response plainOkResp
          (some reqSimpleGet)).headers.get? "Access-Control-Max-Age" =
        none := by decide

/-- C7 amended: on a successful preflight over a response not already
carrying `Access-Control-Max-Age`, the header is emitted with the
stringified `max_age` iff `max_age` is set, non-null AND non-zero; a
registered `max_age` of `0` is omitted, not emitted as `"0"`. -/
theorem c7_max_age_emitted_iff_truthy (c : CORS) (req : Request)
    (resp : Response) (o origin m : String) (cfg : AllowedOrigin)
    (horig : req.headers.get? "Origin" = some o)
    (hcfg : c.getCorsConfigByOrigin o = some (origin, cfg))
    (hm : req.headers.get? "Access-Control-Request-Method" = some m)
    (hmeth : cfg.allow_methods.contains m = true)
    (hok : (CORS.splitHeaderValues req "Access-Control-Request-Headers").any
      (fun rh =>
        !(((cfg.allow_headers ++ CORS.simple_headers).map
            asciiUpper).contains (asciiUpper rh))) = false)
    (hnone : resp.headers.get? "Access-Control-Max-Age" = none) :
    (c.applyCorsPreflightHeaders req resp).headers.get?
        "Access-Control-Max-Age" =
      (match cfg.max_age with
       | none => none
       | some v => if v = 0 then none else some (toString v)) := by
  rw [preflight_success_reduction c req resp o origin m cfg horig hcfg hm
    hmeth hok]
  exact success_get_max_age _ _ _ _ _ (reshape_get_none resp _ hnone)

/-- Witness for C7: with `max_age = 0` registered, no header is emitted. -/
theorem c7_witness :
    (corsZero.applyCorsPreflightHeaders reqSimpleGet plainOkResp).headers.get?
      "Access-Control-Max-Age" = none :=
  (c7_max_age_emitted_iff_truthy corsZero reqSimpleGet plainOkResp "http://a"
      "http://a" "GET" polZero (by decide) (by decide) (by decide) (by decide)
      (by decide) (by decide)).trans (by decide)

/-! ### Claim C8 -/

/-- C8 counterexample: when the raw `Access-Control-Request-Headers` value
carries surrounding whitespace and an empty token, the emitted
`Access-Control-Allow-Headers` value is the comma-join of the PARSED
tokens, which differs from the original raw string. -/
theorem c8_counterexample :
    reqWhitespace.headers.get? "Access-Control-Request-Headers" =
        some " cache-control , " ∧
      (corsA.process_response plainOkResp
          (some reqWhitespace)).headers.get? "Access-Control-Allow-Headers" =
        some "cache-control" ∧
      ("cache-control" : String) ≠ " cache-control , " := by decide

/-- C8 amended: on a successful preflight over a response not already
carrying `Access-Control-Allow-Headers`, the header is set iff the parsed
requested-header list is non-empty, and its value is the comma-join of the
parsed tokens (trimmed, empty tokens dropped) — not the original raw
header string, from which it differs whenever that string carries
surrounding whitespace or empty tokens. -/
theorem c8_allow_headers_join_of_parsed (c : CORS) (req : Request)
    (resp : Response) (o origin m : String) (cfg : AllowedOrigin)
    (horig : req.headers.get? "Origin" = some o)
    (hcfg : c.getCorsConfigByOrigin o = some (origin, cfg))
    (hm : req.headers.get? "Access-Control-Request-Method" = some m)
    (hmeth : cfg.allow_methods.contains m = true)
    (hok : (CORS.splitHeaderValues req "Access-Control-Request-Headers").any
      (fun rh =>
        !(((cfg.allow_headers ++ CORS.simple_headers).map
            asciiUpper).contains (asciiUpper rh))) = false)
    (hnone : resp.headers.get? "Access-Control-Allow-Headers" = none) :
    (c.applyCorsPreflightHeaders req resp).headers.get?
        "Access-Control-Allow-Headers" =
      (if (CORS.splitHeaderValues req
            "Access-Control-Request-Headers").isEmpty then none
       else
         some (String.intercalate ","
           (CORS.splitHeaderValues req "Access-Control-Request-Headers"))) := by
  rw [preflight_success_reduction c req resp o origin m cfg horig hcfg hm
    hmeth hok]
  exact success_get_allow_headers _ _ _ _ _ (reshape_get_none resp _ hnone)

/-- Witness for C8 at the whitespace-laden request. -/
theorem c8_witness :
    (corsA.applyCorsPreflightHeaders reqWhitespace plainOkResp).headers.get?
      "Access-Control-Allow-Headers" = some "cache-control" :=
  (c8_allow_headers_join_of_parsed corsA reqWhitespace plainOkResp "http://a"
      "http://a" "GET" polRestrict (by decide) (by decide) (by decide)
      (by decide) (by decide) (by decide)).trans (by decide)
